import Mathlib

/-!
Verification of the pddl_planner repository (goldhoorn/planning-pddl_planner).

Shallow embedding of the source files under src/:
  - src/src/representation/Domain.hpp  (the Arity class)
  - src/src/PDDLPlannerInterface.hpp   (the base interface with its virtual plan)
  - src/src/planners/ArvandHerd.hpp, src/src/planners/FastDownward.hpp
  - src/src/planners/Randward.cpp      (the Randward adapter: plan / prepare /
    generatePlanCandidates)
  - src/src/Main.cpp                   (the command line front end)

Parts of the repository that Main.cpp and Randward.cpp call but whose bodies are
not among the given source files (Planning.hpp / Planning.cpp, the
AbstractPlanner helpers generateCandidates and cleanup) are modelled from the
specification; each such definition carries a doc comment saying so.
-/

namespace pddl_planner

/-- A set of candidate plans returned by one solver run.  The theorems below
never inspect the internal structure of a plan, so each candidate is kept as an
opaque rendered value. -/
abbrev PlanCandidates := List String

/-! ## Arity (src/src/representation/Domain.hpp, lines 160-216)

`uint8_t` values are embedded as natural numbers; a `uint8_t` argument is a
`Nat` constrained to be at most 255 where a theorem quantifies over it. -/

/-- Largest value of `uint8_t`, i.e. `std::numeric_limits<uint8_t>::max()`. -/
def uint8Max : Nat := 255

/-- The Arity class: minimum and maximum arity, both stored as `uint8_t`. -/
structure Arity where
  mMin : Nat
  mMax : Nat
deriving Repr, DecidableEq

/-- Default constructor `Arity()`: sets `mMin` to `numeric_limits<uint8_t>::min()`
(which is 0) and `mMax` to `numeric_limits<uint8_t>::max()` (which is 255). -/
def Arity.default : Arity := { mMin := 0, mMax := 255 }

/-- Two-argument constructor `Arity(uint8_t min, uint8_t max)`: throws
`std::invalid_argument` when `mMin > mMax`, otherwise constructs the value. -/
def Arity.make (min max : Nat) : Except String Arity :=
  if min > max then
    Except.error "pddl_planner::representation::Arity: min arity greater than max"
  else
    Except.ok { mMin := min, mMax := max }

/-- Accessor `getMin()`. -/
def Arity.getMin (a : Arity) : Nat := a.mMin

/-- Accessor `getMax()`. -/
def Arity.getMax (a : Arity) : Nat := a.mMax

/-- Factory `Arity::exact(uint8_t n)`, defined as `Arity(n, n)`. -/
def Arity.exact (n : Nat) : Except String Arity := Arity.make n n

/-- Factory `Arity::min(uint8_t n)`, defined as
`Arity(n, std::numeric_limits<uint8_t>::max())`. -/
def Arity.min (n : Nat) : Except String Arity := Arity.make n uint8Max

/-- Factory `Arity::max(uint8_t n)`, defined as
`Arity(std::numeric_limits<uint8_t>::min(), n)`. -/
def Arity.max (n : Nat) : Except String Arity := Arity.make 0 n

/-! ## The base interface (src/src/PDDLPlannerInterface.hpp) and the
concrete planners' declared `plan` members (C9) -/

/-- The C++ parameter types that occur in the `plan` signatures. -/
inductive CppType
  | string
  | double
deriving Repr, DecidableEq

/-- Parameter types of the virtual `PDDLPlannerInterface::plan` declared in
src/src/PDDLPlannerInterface.hpp line 11: three `const std::string&`. -/
def basePlanSignature : List CppType := [CppType.string, CppType.string, CppType.string]

/-- The concrete planner adapters appearing in the source files. -/
inductive AdapterKind
  | arvandherd
  | fast_downward
  | randward
deriving Repr, DecidableEq

/-- Parameter types of the `plan` member each concrete planner declares
(ArvandHerd.hpp line 48, FastDownward.hpp line 27, Randward.cpp line 23):
three `const std::string&` plus a `double timeout`.  A default argument, as in
FastDownward, does not change the signature for overriding purposes. -/
def declaredPlanSignature : AdapterKind → List CppType
  | AdapterKind.arvandherd =>
      [CppType.string, CppType.string, CppType.string, CppType.double]
  | AdapterKind.fast_downward =>
      [CppType.string, CppType.string, CppType.string, CppType.double]
  | AdapterKind.randward =>
      [CppType.string, CppType.string, CppType.string, CppType.double]

/-- The C++ override rule: a member of a derived class overrides a base virtual
only when the parameter lists agree exactly. -/
def overridesBasePlan (k : AdapterKind) : Bool :=
  declaredPlanSignature k == basePlanSignature

/-- Body of the base `PDDLPlannerInterface::plan(problem, actions, domain)`:
it unconditionally throws `PlanGenerationException("Plan method not implemented")`. -/
def PDDLPlannerInterface.plan (_problem _actions _domain : String) :
    Except String PlanCandidates :=
  Except.error "Plan method not implemented"

/-- Virtual dispatch of the three-argument `plan` called through a base-class
reference on adapter `k`.  If the adapter's declared `plan` overrode the base
virtual, that (hypothetical) derived body `derivedImpl` would run; otherwise the
base body runs.  `derivedImpl` is universally quantified in the theorem about
this function, so nothing is assumed about it. -/
def interfacePlan
    (derivedImpl : AdapterKind → String → String → String → Except String PlanCandidates)
    (k : AdapterKind) (problem actions domain : String) :
    Except String PlanCandidates :=
  if overridesBasePlan k then
    derivedImpl k problem actions domain
  else
    PDDLPlannerInterface.plan problem actions domain

/-! ## A filesystem model for the adapter claims

The filesystem is a list of directories that exist and an association list from
file paths to contents.  As with `std::ofstream`, opening a file whose parent
directory does not exist silently creates nothing. -/

/-- Filesystem state: the directories that exist and the files (path, content).
Writing to an existing path overwrites its content in place. -/
structure FsState where
  dirs : List String
  files : List (String × String)
deriving Repr, DecidableEq

/-- Set the content of `path` in an association list of files, overwriting an
existing entry or appending a new one. -/
def setFile (files : List (String × String)) (path content : String) :
    List (String × String) :=
  match files with
  | [] => [(path, content)]
  | (p, c) :: rest =>
    if p = path then (p, content) :: rest else (p, c) :: setFile rest path content

/-- Content of the file at `path`, when it exists. -/
def filesContent (files : List (String × String)) (path : String) : Option String :=
  (files.find? (fun pc => pc.1 == path)).map Prod.snd

/-- Content of the file at `path` in a filesystem state. -/
def FsState.fileContent (s : FsState) (path : String) : Option String :=
  filesContent s.files path

/-- Write `content` to the file `dir/name`, as `std::ofstream` does: when the
directory `dir` does not exist the stream just fails and no file appears. -/
def FsState.writeFileIn (s : FsState) (dir name content : String) : FsState :=
  if s.dirs.contains dir then
    { s with files := setFile s.files (dir ++ "/" ++ name) content }
  else s

/-- Remove the file at `path` (a no-op when it does not exist). -/
def FsState.removeFile (s : FsState) (path : String) : FsState :=
  { s with files := s.files.filter (fun pc => pc.1 != path) }

/-- Whether a file exists at `path`. -/
def FsState.hasFile (s : FsState) (path : String) : Bool :=
  s.files.any (fun pc => pc.1 == path)

/-! ## The Randward adapter (src/src/planners/Randward.cpp) -/

/-- Behaviour of the host environment during one Randward invocation:

* `whichRandwardExit` — exit status of `system("which randward-planner")`
  (0 exactly when the script is on the PATH);
* `createDirectorySucceeds` — what `fs::create_directory` returns when asked to
  create the staging directory;
* `candidateFiles` — the work files (name within the staging directory,
  content) that the external solver leaves behind by the time candidate
  generation finishes or fails;
* `generateCandidatesResult` — whether candidate generation returns plan
  candidates or throws a `PlanGenerationException`. -/
structure RandwardHost where
  whichRandwardExit : Int
  createDirectorySucceeds : Bool
  candidateFiles : List (String × String)
  generateCandidatesResult : Except String PlanCandidates

namespace randward

/-- Static member `msDomainFileBasename`. -/
def msDomainFileBasename : String := "domain.pddl"

/-- Static member `msProblemFileBasename`. -/
def msProblemFileBasename : String := "problem.pddl"

/-- Static member `msResultFileBasename`. -/
def msResultFileBasename : String := "plan"

/-- Static member `msTempDirBasename`. -/
def msTempDirBasename : String := "/tmp"

/-- The member variables of `randward::Planner` that `plan`, `prepare` and
`generatePlanCandidates` read and write. -/
structure PlannerState where
  mTempDir : String
  mDomainFilename : String
  mProblemFilename : String
  mResultFilename : String
deriving Repr, DecidableEq

/-- `Planner::prepare` (src/src/planners/Randward.cpp lines 52-71): writes the
domain descriptions followed by a newline and the action descriptions to
`mTempDir/domain.pddl`, the problem followed by a newline to
`mTempDir/problem.pddl`, and records the result filename without creating it. -/
def prepare (ps : PlannerState) (s : FsState)
    (problem actionDescriptions domainDescriptions : String) :
    PlannerState × FsState :=
  let mDomainFilename := ps.mTempDir ++ "/" ++ msDomainFileBasename
  let s := s.writeFileIn ps.mTempDir msDomainFileBasename
    (domainDescriptions ++ "\n" ++ actionDescriptions)
  let mProblemFilename := ps.mTempDir ++ "/" ++ msProblemFileBasename
  let s := s.writeFileIn ps.mTempDir msProblemFileBasename (problem ++ "\n")
  let mResultFilename := ps.mTempDir ++ "/" ++ msResultFileBasename
  ({ ps with
      mDomainFilename := mDomainFilename
      mProblemFilename := mProblemFilename
      mResultFilename := mResultFilename }, s)

/-- Modelled from the spec: `AbstractPlanner::generateCandidates(cmd, tempDir,
resultFilename, name, timeout)` is declared in headers that are not among the
source files.  Per the adapter protocol it runs the external solver command,
which drops work files into the staging directory, and it either returns the
parsed plan candidates or throws a `PlanGenerationException`; both the files
left behind and the outcome are supplied by the host model. -/
def generateCandidates (host : RandwardHost) (tempDir : String) (s : FsState) :
    FsState × Except String PlanCandidates :=
  let s := host.candidateFiles.foldl
    (fun acc nc => acc.writeFileIn tempDir nc.1 nc.2) s
  (s, host.generateCandidatesResult)

/-- Modelled from the spec: `AbstractPlanner::cleanup(dir, files)` is declared
in headers that are not among the source files; per the spec's cleanup step it
deletes each named intermediate file from the staging directory. -/
def cleanup (s : FsState) (dir : String) (files : List String) : FsState :=
  files.foldl (fun acc name => acc.removeFile (dir ++ "/" ++ name)) s

/-- `Planner::generatePlanCandidates` (src/src/planners/Randward.cpp lines
73-87): builds the solver command, calls `generateCandidates`, and only after
it returns normally removes `output`, `output.sas`, `all.groups`,
`test.groups`; a thrown `PlanGenerationException` propagates before the
cleanup statement is reached, as C++ exception flow dictates. -/
def generatePlanCandidates (host : RandwardHost) (ps : PlannerState)
    (s : FsState) : FsState × Except String PlanCandidates :=
  match generateCandidates host ps.mTempDir s with
  | (s1, Except.error e) => (s1, Except.error e)
  | (s1, Except.ok planCandidates) =>
    let s2 := cleanup s1 ps.mTempDir ["output", "output.sas", "all.groups", "test.groups"]
    (s2, Except.ok planCandidates)

/-- The staging path `msTempDirBasename + "/" + currentTime + "_randward"`
formed in `Planner::plan`. -/
def stagingDir (currentTime : String) : String :=
  msTempDirBasename ++ "/" ++ currentTime ++ "_randward"

/-- `Planner::plan` (src/src/planners/Randward.cpp lines 23-50): checks for the
`randward-planner` script with `which` and throws when it is absent; forms the
staging path `/tmp/<currentTime>_randward`; when the path does not exist tries
`fs::create_directory`, merely logging on failure; then runs `prepare` and
`generatePlanCandidates`.  The timeout is stored but no claim depends on its
value, so it is not modelled. -/
def plan (host : RandwardHost) (currentTime : String) (s : FsState)
    (problem actionDescriptions domainDescriptions : String) :
    FsState × Except String PlanCandidates :=
  if host.whichRandwardExit ≠ 0 then
    (s, Except.error "Could not find 'randward-planner' script")
  else
    let path := stagingDir currentTime
    let s :=
      if ¬ s.dirs.contains path then
        if host.createDirectorySucceeds then { s with dirs := path :: s.dirs } else s
      else s
    let ps : PlannerState :=
      { mTempDir := path, mDomainFilename := "", mProblemFilename := "",
        mResultFilename := "" }
    let pss := prepare ps s problem actionDescriptions domainDescriptions
    generatePlanCandidates host pss.1 pss.2

end randward

/-! ## Helper lemmas about the filesystem model -/

/-- Looking up a path in a cons cell of the file list. -/
theorem filesContent_cons (p c path : String) (rest : List (String × String)) :
    filesContent ((p, c) :: rest) path =
      if p = path then some c else filesContent rest path := by
  by_cases h : p = path
  · rw [if_pos h]
    unfold filesContent
    rw [List.find?_cons_of_pos _ (by simp [h])]
    rfl
  · rw [if_neg h]
    unfold filesContent
    rw [List.find?_cons_of_neg _ (by simp [h])]

/-- After `setFile`, the written path holds the written content. -/
theorem filesContent_setFile_self (files : List (String × String))
    (path content : String) :
    filesContent (setFile files path content) path = some content := by
  induction files with
  | nil => simp [setFile, filesContent_cons]
  | cons pc rest ih =>
    obtain ⟨p, c⟩ := pc
    unfold setFile
    by_cases h : p = path
    · rw [if_pos h, filesContent_cons, if_pos h]
    · rw [if_neg h, filesContent_cons, if_neg h]
      exact ih

/-- `setFile` leaves every other path unchanged. -/
theorem filesContent_setFile_other (files : List (String × String))
    (path content q : String) (h : q ≠ path) :
    filesContent (setFile files path content) q = filesContent files q := by
  induction files with
  | nil =>
    show filesContent [(path, content)] q = filesContent [] q
    rw [filesContent_cons, if_neg (fun hh => h hh.symm)]
  | cons pc rest ih =>
    obtain ⟨p, c⟩ := pc
    unfold setFile
    by_cases hp : p = path
    · subst hp
      rw [if_pos rfl, filesContent_cons, filesContent_cons,
        if_neg (fun hh => h hh.symm), if_neg (fun hh => h hh.symm)]
    · rw [if_neg hp, filesContent_cons, filesContent_cons, ih]

/-- Removing a file makes it absent. -/
theorem hasFile_removeFile_self (s : FsState) (p : String) :
    (s.removeFile p).hasFile p = false := by
  unfold FsState.removeFile FsState.hasFile
  simp only [List.any_eq_false]
  intro pc hpc
  rcases List.mem_filter.mp hpc with ⟨_, hkeep⟩
  simpa using hkeep

/-- Removing some (other) file preserves absence. -/
theorem hasFile_removeFile_mono (s : FsState) (p q : String)
    (h : s.hasFile p = false) : (s.removeFile q).hasFile p = false := by
  unfold FsState.removeFile FsState.hasFile
  simp only [List.any_eq_false]
  intro pc hpc
  rcases List.mem_filter.mp hpc with ⟨hmem, _⟩
  have := List.any_eq_false.mp h pc hmem
  simpa using this

/-- `removeFile` never changes the set of directories. -/
theorem removeFile_dirs (s : FsState) (p : String) :
    (s.removeFile p).dirs = s.dirs := rfl

/-- `cleanup` never changes the set of directories. -/
theorem cleanup_dirs (files : List String) (s : FsState) (dir : String) :
    (randward.cleanup s dir files).dirs = s.dirs := by
  induction files generalizing s with
  | nil => rfl
  | cons f rest ih =>
    show (randward.cleanup (s.removeFile (dir ++ "/" ++ f)) dir rest).dirs = s.dirs
    rw [ih, removeFile_dirs]

/-- Writing into a directory that does not exist is a no-op, as for
`std::ofstream`. -/
theorem writeFileIn_missing (s : FsState) (dir name content : String)
    (h : s.dirs.contains dir = false) : s.writeFileIn dir name content = s := by
  unfold FsState.writeFileIn
  rw [h]
  rfl

/-- A fold of writes into a missing directory is a no-op. -/
theorem foldl_writeFileIn_missing (dir : String) (lst : List (String × String))
    (s : FsState) (h : s.dirs.contains dir = false) :
    lst.foldl (fun acc nc => acc.writeFileIn dir nc.1 nc.2) s = s := by
  induction lst with
  | nil => rfl
  | cons nc rest ih =>
    rw [List.foldl_cons, writeFileIn_missing s dir nc.1 nc.2 h]
    exact ih

/-! ## Concrete hosts and filesystems used by witnesses and counterexamples -/

/-- A host on which the `which randward-planner` probe fails. -/
def hostNoScript : RandwardHost :=
  { whichRandwardExit := 1
    createDirectorySucceeds := true
    candidateFiles := []
    generateCandidatesResult := Except.ok [] }

/-- A host on which the script exists and candidate generation throws after the
external solver has dropped a work file `output` in the staging directory. -/
def hostGenFails : RandwardHost :=
  { whichRandwardExit := 0
    createDirectorySucceeds := true
    candidateFiles := [("output", "work-in-progress")]
    generateCandidatesResult := Except.error "Plan generation failed" }

/-- A host on which the script exists and candidate generation succeeds after
leaving two work files behind. -/
def hostGenOk : RandwardHost :=
  { whichRandwardExit := 0
    createDirectorySucceeds := true
    candidateFiles := [("output", "work"), ("all.groups", "groups")]
    generateCandidatesResult := Except.ok ["(plan)"] }

/-- A host on which the script exists but `fs::create_directory` fails. -/
def hostNoDir : RandwardHost :=
  { whichRandwardExit := 0
    createDirectorySucceeds := false
    candidateFiles := []
    generateCandidatesResult := Except.ok ["(plan)"] }

/-- An initial filesystem in which only `/tmp` exists. -/
def fs0 : FsState := { dirs := ["/tmp"], files := [] }

/-- The pair of `setFile` writes that `prepare` performs on the file list. -/
def prepWrites (files : List (String × String))
    (tmp problem actionDescriptions domainDescriptions : String) :
    List (String × String) :=
  setFile
    (setFile files (tmp ++ "/" ++ "domain.pddl")
      (domainDescriptions ++ "\n" ++ actionDescriptions))
    (tmp ++ "/" ++ "problem.pddl") (problem ++ "\n")

/-- The planner-member state as it stands after `prepare` ran with the staging
directory `stagingDir currentTime`. -/
def randward.preparedState (currentTime : String) : randward.PlannerState :=
  { mTempDir := randward.stagingDir currentTime
    mDomainFilename := randward.stagingDir currentTime ++ "/" ++ randward.msDomainFileBasename
    mProblemFilename := randward.stagingDir currentTime ++ "/" ++ randward.msProblemFileBasename
    mResultFilename := randward.stagingDir currentTime ++ "/" ++ randward.msResultFileBasename }

/-! ## The command line front end (src/src/Main.cpp)

The global `planners` variable of Main.cpp is a `std::set<std::string>`, an
ordered container: iteration visits the names in ascending lexicographic
order of `std::string::operator<`, however they were inserted.  It is embedded
as a strictly ascending list of strings. -/

/-- Lexicographic comparison of character lists by code point, matching
byte-wise `std::string::operator<` on the ASCII planner names used here. -/
def charListLt : List Char → List Char → Bool
  | [], [] => false
  | [], _ :: _ => true
  | _ :: _, [] => false
  | a :: as, b :: bs =>
    if a.toNat < b.toNat then true
    else if b.toNat < a.toNat then false
    else charListLt as bs

/-- `std::string` comparison. -/
def strLt (a b : String) : Bool := charListLt a.data b.data

/-- `std::set<std::string>::insert`: keeps the elements unique, in ascending
order; inserting an element already present changes nothing. -/
def setInsert : List String → String → List String
  | [], x => [x]
  | y :: ys, x =>
    if strLt x y then x :: y :: ys
    else if strLt y x then y :: setInsert ys x
    else y :: ys

/-- Insert a sequence of names into an ordered set, left to right. -/
def setInsertAll (s : List String) (xs : List String) : List String :=
  xs.foldl setInsert s

/-- Per-solver outcome, as the spec's `PlanOutcome` tagged union. -/
inductive PlanOutcome
  | success (candidates : PlanCandidates)
  | failure (errorKind message : String)
deriving Repr, DecidableEq

/-- Modelled from the spec: the `pddl_planner::Planning` component
(Planning.hpp / Planning.cpp are not among the source files).  Its observable
state for the claims is the registry — the ordered set of registered planner
names (the keys of the `PlannerMap`, a `std::map`, hence ascending) — and the
per-solver `PlanOutcome` each registered adapter produces on the current
problem.  The domain description stored through `setDomainDescription` is
consumed by the adapters and therefore absorbed into `outcomeOf`. -/
structure Planning where
  registered : List String
  outcomeOf : String → PlanOutcome

/-- The message opening that Main.cpp line 297 compares against with
`strncmp`. -/
def unknownPlannerMsgStart : String := "pddl_planner::Planning: planner with name '"

/-- The `strncmp(msg, unknownPlannerMsgStart, strlen(unknownPlannerMsgStart)) == 0`
test of Main.cpp line 297: the first `strlen` characters of the message agree
with the pattern. -/
def matchesUnknownPlannerMsg (msg : String) : Bool :=
  msg.data.take unknownPlannerMsgStart.data.length == unknownPlannerMsgStart.data

/-- Modelled from the spec: `Planning::plan(problem, planners, sequential,
timeout)` (not among the source files).  Per spec.md section 4.3, every
requested name must resolve against the registry; an unregistered name raises
`UnknownSolver` — surfaced as a `std::runtime_error` whose message begins with
the text Main.cpp line 297 tests for — and aborts the whole run before any
solver is invoked.  Otherwise the report holds exactly one `(name, outcome)`
pair per requested name, in request order — the request being the ordered set
of names — independent of completion order and of the sequential/parallel
mode, which is an execution-strategy choice with no observable semantic
difference. -/
def planningPlan (p : Planning) (_problem : String) (planners : List String)
    (_seq : Bool) : Except String (List (String × PlanOutcome)) :=
  match planners.find? (fun n => !(p.registered.contains n)) with
  | some bad =>
    Except.error (unknownPlannerMsgStart ++ bad ++ "' does not exist")
  | none => Except.ok (planners.map (fun n => (n, p.outcomeOf n)))

/-- The printf output of Main.cpp, as structured events. -/
inductive OutEvent
  | usage
  | tooFewArgs
  | badPlannerCount
  | openError (filename : String)
  | plannerReport (name : String) (outcome : PlanOutcome)
  | errorMsg (msg : String)
  | registeredNames (names : List String)
deriving Repr, DecidableEq

/-- Observable result of one run of `main`: the process exit code, the output
events, and the planner set handed to `Planning::plan` (`none` when `plan` was
never reached). -/
structure CliRun where
  exitCode : Int
  events : List OutEvent
  plannersUsed : Option (List String)
deriving Repr, DecidableEq

/-- The host environment of a `main` run: how `fopen`/`fgets` resolve a file
name (`none` when the file cannot be opened) and the `Planning` component. -/
structure CliEnv where
  readFile : String → Option String
  planning : Planning

/-- Leading decimal digits, most significant first, as `atoi` accumulates
them; stops at the first non-digit. -/
def atoiDigits : List Char → Nat → Nat
  | [], acc => acc
  | c :: cs, acc =>
    if c.isDigit then atoiDigits cs (acc * 10 + (c.toNat - 48)) else acc

/-- C `atoi` on the planner-count argument: an optional sign followed by
leading digits (the inputs in the theorems below carry no leading blanks, so
whitespace skipping is not modelled). -/
def atoi (s : String) : Int :=
  match s.data with
  | '-' :: cs => - Int.ofNat (atoiDigits cs 0)
  | '+' :: cs => Int.ofNat (atoiDigits cs 0)
  | cs => Int.ofNat (atoiDigits cs 0)

/-- Outcome of the argument-parsing part of `main` (Main.cpp lines 104-237):
either an early `exit(0)` after diagnostics, or the parsed configuration.
`planners` holds the ordered set filled by the `-l` branch (empty otherwise),
`liste` and `seq` mirror the globals, and `plannerName` is the `-p` name or
the default "LAMA".  The `-t` timeout value is parsed with `atof` in the
source; no claim depends on it, so it is not retained. -/
inductive ParseResult
  | earlyExit (events : List OutEvent)
  | parsed (planners : List String) (liste seq : Bool)
      (plannerName domainFilename problemFilename : String)
deriving Repr, DecidableEq

/-- The argument-parsing part of `main` (Main.cpp lines 104-237), branch for
branch.  `argv` includes the program name at index 0, so `argc = argv.length`;
the C++ code guards every `argv` access with an `argc` test, so the default ""
of `getD` is never read on any path the guards admit. -/
def parseArgs (argv : List String) : ParseResult :=
  let argc := argv.length
  let firstArg := argv.getD 1 ""
  if firstArg = "-p" ∧ (argc = 5 ∨ argc = 7) then
    if argc = 5 then
      ParseResult.parsed [] false false (argv.getD 2 "") (argv.getD 3 "") (argv.getD 4 "")
    else if argv.getD 3 "" ≠ "-t" then ParseResult.earlyExit [OutEvent.usage]
    else
      ParseResult.parsed [] false false (argv.getD 2 "") (argv.getD 5 "") (argv.getD 6 "")
  else if firstArg = "-t" ∧ argc = 7 then
    if argv.getD 3 "" ≠ "-p" then ParseResult.earlyExit [OutEvent.usage]
    else
      ParseResult.parsed [] false false (argv.getD 4 "") (argv.getD 5 "") (argv.getD 6 "")
  else if argc = 3 then
    ParseResult.parsed [] false false "LAMA" (argv.getD 1 "") (argv.getD 2 "")
  else if firstArg = "-l" then
    if argc < 3 then ParseResult.earlyExit [OutEvent.tooFewArgs, OutEvent.usage]
    else
      let nplanners := atoi (argv.getD 2 "")
      if nplanners < 1 then ParseResult.earlyExit [OutEvent.badPlannerCount, OutEvent.usage]
      else
        let n := nplanners.toNat
        if argc < 5 + n then ParseResult.earlyExit [OutEvent.tooFewArgs, OutEvent.usage]
        else
          let planners := setInsertAll [] ((List.range n).map (fun i => argv.getD (3 + i) ""))
          if argv.getD (3 + n) "" = "-t" then
            if argc < 7 + n then ParseResult.earlyExit [OutEvent.tooFewArgs, OutEvent.usage]
            else if argv.getD (5 + n) "" = "--sequential" ∨ argv.getD (5 + n) "" = "-s" then
              if argc < 8 + n then ParseResult.earlyExit [OutEvent.tooFewArgs, OutEvent.usage]
              else
                ParseResult.parsed planners true true "LAMA"
                  (argv.getD (6 + n) "") (argv.getD (7 + n) "")
            else
              ParseResult.parsed planners true false "LAMA"
                (argv.getD (5 + n) "") (argv.getD (6 + n) "")
          else if argv.getD (3 + n) "" = "--sequential" ∨ argv.getD (3 + n) "" = "-s" then
            if argc < 6 + n then ParseResult.earlyExit [OutEvent.tooFewArgs, OutEvent.usage]
            else if argv.getD (4 + n) "" = "-t" then
              if argc < 8 + n then ParseResult.earlyExit [OutEvent.tooFewArgs, OutEvent.usage]
              else
                ParseResult.parsed planners true true "LAMA"
                  (argv.getD (6 + n) "") (argv.getD (7 + n) "")
            else
              ParseResult.parsed planners true true "LAMA"
                (argv.getD (4 + n) "") (argv.getD (5 + n) "")
          else
            ParseResult.parsed planners true false "LAMA"
              (argv.getD (3 + n) "") (argv.getD (4 + n) "")
  else ParseResult.earlyExit [OutEvent.usage]

/-- The `try`/`catch` tail of `main` (Main.cpp lines 284-312): on a report,
print one line per entry; on a `std::runtime_error`, print its message and —
when it starts with the text tested on line 297 — the registered planner
names.  Either way control falls through to `return 0`. -/
def reportRun (registered planners : List String)
    (res : Except String (List (String × PlanOutcome))) : CliRun :=
  match res with
  | Except.ok planResultList =>
    { exitCode := 0
      events := planResultList.map (fun pr => OutEvent.plannerReport pr.1 pr.2)
      plannersUsed := some planners }
  | Except.error msg =>
    { exitCode := 0
      events := [OutEvent.errorMsg msg] ++
        (if matchesUnknownPlannerMsg msg then [OutEvent.registeredNames registered] else [])
      plannersUsed := some planners }

/-- The part of `main` after argument parsing (Main.cpp lines 239-313): read
the domain file and the problem file, exiting with -1 when either cannot be
opened; when no `-l` list was given insert the single planner name into the
set; then run `Planning::plan` under the `try`/`catch` tail. -/
def mainAfterParse (env : CliEnv) (planners0 : List String) (liste _seq : Bool)
    (plannerName domainFilename problemFilename : String) : CliRun :=
  match env.readFile domainFilename with
  | none => { exitCode := -1, events := [OutEvent.openError domainFilename], plannersUsed := none }
  | some _domainDescription =>
    match env.readFile problemFilename with
    | none =>
      { exitCode := -1, events := [OutEvent.openError problemFilename], plannersUsed := none }
    | some problemDescription =>
      let planners := if ¬ liste then setInsert planners0 plannerName else planners0
      reportRun env.planning.registered planners
        (planningPlan env.planning problemDescription planners _seq)

/-- `main` (Main.cpp lines 87-313): the leading `argc`/help checks, then
argument parsing, then the post-parse phase. -/
def mainModel (env : CliEnv) (argv : List String) : CliRun :=
  let argc := argv.length
  if argc < 2 then { exitCode := 0, events := [OutEvent.usage], plannersUsed := none }
  else
    let firstArg := argv.getD 1 ""
    if firstArg = "-h" ∨ firstArg = "--help" then
      { exitCode := 0, events := [OutEvent.usage], plannersUsed := none }
    else
      match parseArgs argv with
      | ParseResult.earlyExit evs => { exitCode := 0, events := evs, plannersUsed := none }
      | ParseResult.parsed planners0 liste seq plannerName domainFilename problemFilename =>
        mainAfterParse env planners0 liste seq plannerName domainFilename problemFilename

/-- The sequence of solver names in the printed report, in print order. -/
def reportNames (run : CliRun) : List String :=
  run.events.filterMap (fun e =>
    match e with
    | OutEvent.plannerReport n _ => some n
    | _ => none)

/-- An environment in which both input files are readable and the planners
"FD" and "LAMA" are registered, every solver succeeding with no candidate. -/
def envTwoRegistered : CliEnv :=
  { readFile := fun f => if f = "dom.pddl" ∨ f = "prob.pddl" then some "(pddl)" else none
    planning :=
      { registered := ["FD", "LAMA"]
        outcomeOf := fun _ => PlanOutcome.success [] } }

/-- An environment in which both input files are readable and only "LAMA" is
registered. -/
def envOneRegistered : CliEnv :=
  { readFile := fun f => if f = "dom.pddl" ∨ f = "prob.pddl" then some "(pddl)" else none
    planning :=
      { registered := ["LAMA"]
        outcomeOf := fun _ => PlanOutcome.success [] } }

end pddl_planner

namespace pddl_planner

/-- C9: the base interface `plan` throws "Plan method not implemented" for every
input; no concrete planner's four-argument `plan` declaration overrides the
three-argument virtual, so invoking the three-argument `plan` through the base
interface on any adapter always reaches the base body and throws, no matter
what the derived four-argument implementations do. -/
theorem C9_base_plan_always_throws :
    (∀ problem actions domain : String,
      PDDLPlannerInterface.plan problem actions domain =
        Except.error "Plan method not implemented") ∧
    (∀ k : AdapterKind, overridesBasePlan k = false) ∧
    (∀ (derivedImpl : AdapterKind → String → String → String →
        Except String PlanCandidates)
      (k : AdapterKind) (problem actions domain : String),
      interfacePlan derivedImpl k problem actions domain =
        Except.error "Plan method not implemented") := by
  refine ⟨fun _ _ _ => rfl, ?_, ?_⟩
  · intro k; cases k <;> rfl
  · intro impl k problem actions domain
    cases k <;> rfl

/-- C10: every constructed Arity satisfies getMin ≤ getMax; the two-argument
constructor throws exactly when min > max; the default constructor yields
(0, 255); and the factories exact, min, max never throw for any uint8_t
argument. -/
theorem C10_arity_invariant :
    (Arity.default.getMin = 0 ∧ Arity.default.getMax = 255) ∧
    (∀ mi ma : Nat, (∃ a, Arity.make mi ma = Except.ok a) ↔ mi ≤ ma) ∧
    (∀ mi ma a, Arity.make mi ma = Except.ok a → a.getMin ≤ a.getMax) ∧
    (∀ n : Nat, n ≤ uint8Max →
      (∃ a, Arity.exact n = Except.ok a) ∧
      (∃ a, Arity.min n = Except.ok a) ∧
      (∃ a, Arity.max n = Except.ok a)) := by
  refine ⟨⟨rfl, rfl⟩, ?_, ?_, ?_⟩
  · intro mi ma
    constructor
    · rintro ⟨a, ha⟩
      by_contra hlt
      rw [Arity.make, if_pos (Nat.lt_of_not_le hlt)] at ha
      exact Except.noConfusion ha
    · intro hle
      exact ⟨_, by rw [Arity.make, if_neg (Nat.not_lt.mpr hle)]⟩
  · intro mi ma a ha
    by_cases h : mi > ma
    · rw [Arity.make, if_pos h] at ha
      exact Except.noConfusion ha
    · rw [Arity.make, if_neg h] at ha
      cases ha
      exact Nat.le_of_not_lt h
  · intro n hn
    refine ⟨⟨{ mMin := n, mMax := n }, ?_⟩, ⟨{ mMin := n, mMax := uint8Max }, ?_⟩,
      ⟨{ mMin := 0, mMax := n }, ?_⟩⟩
    · rw [Arity.exact, Arity.make, if_neg (Nat.not_lt.mpr (Nat.le_refl n))]
    · rw [Arity.min, Arity.make, if_neg (Nat.not_lt.mpr hn)]
    · rw [Arity.max, Arity.make, if_neg (Nat.not_lt.mpr (Nat.zero_le n))]

/-- Witness for C10 at the concrete uint8_t value 7. -/
theorem C10_arity_invariant_witness :
    (∃ a, Arity.exact 7 = Except.ok a) ∧
    (∃ a, Arity.min 7 = Except.ok a) ∧
    (∃ a, Arity.max 7 = Except.ok a) :=
  C10_arity_invariant.2.2.2 7 (by decide)

/-- Appending different suffixes to the same string yields different strings. -/
theorem append_ne_of_ne (a b c : String) (h : b ≠ c) : a ++ b ≠ a ++ c := by
  intro hh
  apply h
  apply String.ext
  have hd := congrArg String.data hh
  rw [String.data_append, String.data_append] at hd
  exact List.append_cancel_left hd

/-- C5: when the `randward-planner` script is absent from the host (the `which`
probe exits nonzero), Randward's `plan` fails at once with the
`PlanGenerationException` naming the missing script, before the staging
directory or any staging file is touched: the filesystem state is returned
unchanged. -/
theorem C5_missing_script_fails_before_staging (host : RandwardHost)
    (currentTime : String) (s : FsState)
    (problem actionDescriptions domainDescriptions : String)
    (h : host.whichRandwardExit ≠ 0) :
    randward.plan host currentTime s problem actionDescriptions domainDescriptions =
      (s, Except.error "Could not find 'randward-planner' script") := by
  unfold randward.plan
  rw [if_pos h]

/-- Witness for C5 on a concrete host and input. -/
theorem C5_missing_script_fails_before_staging_witness :
    randward.plan hostNoScript "20240101" fs0 "(problem)" "(actions)" "(domain)" =
      (fs0, Except.error "Could not find 'randward-planner' script") :=
  C5_missing_script_fails_before_staging hostNoScript "20240101" fs0
    "(problem)" "(actions)" "(domain)" (by decide)

/-- C7: `prepare` writes exactly two files into the staging area: the domain
file holding the domain descriptions, a newline and the action descriptions,
and the problem file holding the problem followed by a newline; every other
path and the set of directories are untouched. -/
theorem C7_prepare_writes_two_files (ps : randward.PlannerState) (s : FsState)
    (problem actionDescriptions domainDescriptions : String)
    (hd : s.dirs.contains ps.mTempDir = true) :
    (randward.prepare ps s problem actionDescriptions domainDescriptions).2.fileContent
        (ps.mTempDir ++ "/" ++ "domain.pddl") =
      some (domainDescriptions ++ "\n" ++ actionDescriptions) ∧
    (randward.prepare ps s problem actionDescriptions domainDescriptions).2.fileContent
        (ps.mTempDir ++ "/" ++ "problem.pddl") = some (problem ++ "\n") ∧
    (∀ q : String, q ≠ ps.mTempDir ++ "/" ++ "domain.pddl" →
      q ≠ ps.mTempDir ++ "/" ++ "problem.pddl" →
      (randward.prepare ps s problem actionDescriptions domainDescriptions).2.fileContent q =
        s.fileContent q) ∧
    (randward.prepare ps s problem actionDescriptions domainDescriptions).2.dirs = s.dirs := by
  have hpaths : ps.mTempDir ++ "/" ++ "domain.pddl" ≠ ps.mTempDir ++ "/" ++ "problem.pddl" :=
    append_ne_of_ne _ _ _ (by decide)
  have hstep : (randward.prepare ps s problem actionDescriptions domainDescriptions).2 =
      { s with files := prepWrites s.files ps.mTempDir problem actionDescriptions domainDescriptions } := by
    unfold randward.prepare FsState.writeFileIn prepWrites
    simp only [randward.msDomainFileBasename, randward.msProblemFileBasename, hd]
    simp [hd]
    intro hmem
    exact absurd hd (by simpa using hmem)
  refine ⟨?_, ?_, ?_, ?_⟩
  · rw [hstep]
    show filesContent (prepWrites s.files ps.mTempDir problem actionDescriptions domainDescriptions) _ = _
    unfold prepWrites
    rw [filesContent_setFile_other _ _ _ _ hpaths, filesContent_setFile_self]
  · rw [hstep]
    show filesContent (prepWrites s.files ps.mTempDir problem actionDescriptions domainDescriptions) _ = _
    unfold prepWrites
    rw [filesContent_setFile_self]
  · intro q hq1 hq2
    rw [hstep]
    show filesContent (prepWrites s.files ps.mTempDir problem actionDescriptions domainDescriptions) _ = _
    unfold prepWrites
    rw [filesContent_setFile_other _ _ _ _ hq2, filesContent_setFile_other _ _ _ _ hq1]
    rfl
  · rw [hstep]

/-- When candidate generation returns normally, `generatePlanCandidates` is the
cleanup of the four work files applied to the state candidate generation left. -/
theorem generatePlanCandidates_ok (host : RandwardHost)
    (ps : randward.PlannerState) (s : FsState) (pcs : PlanCandidates)
    (hg : host.generateCandidatesResult = Except.ok pcs) :
    randward.generatePlanCandidates host ps s =
      (randward.cleanup (randward.generateCandidates host ps.mTempDir s).1 ps.mTempDir
        ["output", "output.sas", "all.groups", "test.groups"], Except.ok pcs) := by
  unfold randward.generatePlanCandidates randward.generateCandidates
  rw [hg]

/-- When the `which` probe passes, `plan` reduces to `generatePlanCandidates`
run on the prepared member state, for some intermediate filesystem. -/
theorem plan_eq_generatePlanCandidates (host : RandwardHost)
    (currentTime : String) (s : FsState)
    (problem actionDescriptions domainDescriptions : String)
    (hw : ¬ host.whichRandwardExit ≠ 0) :
    ∃ s1, randward.plan host currentTime s problem actionDescriptions domainDescriptions =
      randward.generatePlanCandidates host (randward.preparedState currentTime) s1 := by
  refine ⟨?_, ?_⟩
  case refine_1 =>
    exact (randward.prepare
      { mTempDir := randward.stagingDir currentTime, mDomainFilename := "",
        mProblemFilename := "", mResultFilename := "" }
      (if ¬ s.dirs.contains (randward.stagingDir currentTime) then
        if host.createDirectorySucceeds then
          { s with dirs := randward.stagingDir currentTime :: s.dirs }
        else s
      else s)
      problem actionDescriptions domainDescriptions).2
  case refine_2 =>
    unfold randward.plan
    rw [if_neg hw]
    rfl

/-- When the staging directory is missing, `prepare` only sets the member
filenames; no file is created, as for `std::ofstream` on a missing path. -/
theorem prepare_missing (ps : randward.PlannerState) (s : FsState)
    (problem actionDescriptions domainDescriptions : String)
    (h : s.dirs.contains ps.mTempDir = false) :
    randward.prepare ps s problem actionDescriptions domainDescriptions =
      ({ ps with
          mDomainFilename := ps.mTempDir ++ "/" ++ randward.msDomainFileBasename
          mProblemFilename := ps.mTempDir ++ "/" ++ randward.msProblemFileBasename
          mResultFilename := ps.mTempDir ++ "/" ++ randward.msResultFileBasename }, s) := by
  have h' : ps.mTempDir ∉ s.dirs := by
    intro hmem
    have hc : s.dirs.contains ps.mTempDir = true := by simpa using hmem
    rw [h] at hc
    exact Bool.noConfusion hc
  simp [randward.prepare, FsState.writeFileIn, h']

/-- After the four-file cleanup, none of the four work files exists. -/
theorem cleanup_four_removes (s : FsState) (dir : String) :
    ∀ name ∈ (["output", "output.sas", "all.groups", "test.groups"] : List String),
      (randward.cleanup s dir ["output", "output.sas", "all.groups", "test.groups"]).hasFile
        (dir ++ "/" ++ name) = false := by
  intro name hname
  have hc : randward.cleanup s dir ["output", "output.sas", "all.groups", "test.groups"] =
      ((((s.removeFile (dir ++ "/" ++ "output")).removeFile
          (dir ++ "/" ++ "output.sas")).removeFile
        (dir ++ "/" ++ "all.groups")).removeFile (dir ++ "/" ++ "test.groups")) := rfl
  rw [hc]
  simp only [List.mem_cons, List.not_mem_nil, or_false] at hname
  rcases hname with rfl | rfl | rfl | rfl
  · exact hasFile_removeFile_mono _ _ _ (hasFile_removeFile_mono _ _ _
      (hasFile_removeFile_mono _ _ _ (hasFile_removeFile_self s _)))
  · exact hasFile_removeFile_mono _ _ _ (hasFile_removeFile_mono _ _ _
      (hasFile_removeFile_self _ _))
  · exact hasFile_removeFile_mono _ _ _ (hasFile_removeFile_self _ _)
  · exact hasFile_removeFile_self _ _

/-- Counterexample to C2 as stated: on a host where candidate generation
throws after the external solver left a work file `output` behind, Randward's
invocation propagates the exception before the cleanup statement is reached,
and the work file survives the invocation. -/
theorem C2_counterexample :
    (randward.plan hostGenFails "T" fs0 "(problem)" "(actions)" "(domain)").2 =
      Except.error "Plan generation failed" ∧
    (randward.plan hostGenFails "T" fs0 "(problem)" "(actions)" "(domain)").1.hasFile
      "/tmp/T_randward/output" = true := by
  constructor
  · rfl
  · rfl

/-- C2 amended: Randward removes its intermediate files output, output.sas,
all.groups, test.groups only on the path where candidate generation returns
normally; when candidate generation throws, the cleanup statement is never
reached (so the removal is conditional, not unconditional). -/
theorem C2_cleanup_only_on_success (host : RandwardHost) (currentTime : String)
    (s : FsState) (problem actionDescriptions domainDescriptions : String)
    (pcs : PlanCandidates)
    (hw : host.whichRandwardExit = 0)
    (hg : host.generateCandidatesResult = Except.ok pcs) :
    (randward.plan host currentTime s problem actionDescriptions domainDescriptions).2 =
      Except.ok pcs ∧
    (∀ name ∈ (["output", "output.sas", "all.groups", "test.groups"] : List String),
      (randward.plan host currentTime s problem actionDescriptions domainDescriptions).1.hasFile
        (randward.stagingDir currentTime ++ "/" ++ name) = false) := by
  have hw' : ¬ host.whichRandwardExit ≠ 0 := by rw [hw]; simp
  obtain ⟨s1, hplan⟩ := plan_eq_generatePlanCandidates host currentTime s
    problem actionDescriptions domainDescriptions hw'
  rw [hplan, generatePlanCandidates_ok host _ s1 pcs hg]
  exact ⟨rfl, cleanup_four_removes _ _⟩

/-- Witness for the amended C2 on a concrete host whose candidate generation
succeeds after leaving two work files behind. -/
theorem C2_cleanup_only_on_success_witness :
    (randward.plan hostGenOk "T" fs0 "(problem)" "(actions)" "(domain)").2 =
      Except.ok ["(plan)"] ∧
    (randward.plan hostGenOk "T" fs0 "(problem)" "(actions)" "(domain)").1.hasFile
      (randward.stagingDir "T" ++ "/" ++ "output") = false :=
  ⟨(C2_cleanup_only_on_success hostGenOk "T" fs0 "(problem)" "(actions)" "(domain)"
      ["(plan)"] rfl rfl).1,
   (C2_cleanup_only_on_success hostGenOk "T" fs0 "(problem)" "(actions)" "(domain)"
      ["(plan)"] rfl rfl).2 "output" (by simp)⟩

/-- Counterexample to C4 as stated: on a host where `fs::create_directory`
fails for the staging path, Randward's invocation does not fail — it proceeds
to candidate generation and returns its (successful) outcome, and no staging
directory was ever created. -/
theorem C4_counterexample :
    hostNoDir.createDirectorySucceeds = false ∧
    (randward.plan hostNoDir "T" fs0 "(problem)" "(actions)" "(domain)").2 =
      Except.ok ["(plan)"] ∧
    (randward.plan hostNoDir "T" fs0 "(problem)" "(actions)" "(domain)").1.dirs = ["/tmp"] := by
  refine ⟨rfl, ?_, ?_⟩
  · rfl
  · rfl

/-- C4 amended: when `fs::create_directory` fails for the `/tmp` staging path,
Randward's `plan` only logs the error and proceeds: the invocation's outcome is
whatever candidate generation returns, and the staging directory is never
created.  No per-solver filesystem failure is produced. -/
theorem C4_create_directory_failure_ignored (host : RandwardHost)
    (currentTime : String) (s : FsState)
    (problem actionDescriptions domainDescriptions : String)
    (hw : host.whichRandwardExit = 0)
    (hne : s.dirs.contains (randward.stagingDir currentTime) = false)
    (hcd : host.createDirectorySucceeds = false) :
    (randward.plan host currentTime s problem actionDescriptions domainDescriptions).2 =
      host.generateCandidatesResult ∧
    (randward.plan host currentTime s problem actionDescriptions domainDescriptions).1.dirs =
      s.dirs := by
  have hw' : ¬ host.whichRandwardExit ≠ 0 := by rw [hw]; simp
  have hplan : randward.plan host currentTime s problem actionDescriptions domainDescriptions =
      randward.generatePlanCandidates host (randward.preparedState currentTime) s := by
    unfold randward.plan
    rw [if_neg hw']
    show randward.generatePlanCandidates host
      (randward.prepare _ (if ¬ s.dirs.contains (randward.stagingDir currentTime) then
          if host.createDirectorySucceeds then
            { s with dirs := randward.stagingDir currentTime :: s.dirs }
          else s
        else s) problem actionDescriptions domainDescriptions).1
      (randward.prepare _ _ problem actionDescriptions domainDescriptions).2 = _
    rw [if_pos (by rw [hne]; simp), if_neg (by rw [hcd]; simp)]
    rw [prepare_missing
      { mTempDir := randward.stagingDir currentTime, mDomainFilename := "",
        mProblemFilename := "", mResultFilename := "" }
      s problem actionDescriptions domainDescriptions hne]
    rfl
  rw [hplan]
  unfold randward.generatePlanCandidates randward.generateCandidates
  have hfold : (host.candidateFiles.foldl
      (fun acc nc => acc.writeFileIn (randward.preparedState currentTime).mTempDir nc.1 nc.2) s) = s :=
    foldl_writeFileIn_missing _ _ _ hne
  rw [hfold]
  cases hres : host.generateCandidatesResult with
  | error e => exact ⟨rfl, rfl⟩
  | ok pcs => exact ⟨rfl, cleanup_dirs _ _ _⟩

/-- Witness for the amended C4 on a concrete host where directory creation
fails and candidate generation succeeds. -/
theorem C4_create_directory_failure_ignored_witness :
    (randward.plan hostNoDir "W" fs0 "(problem)" "(actions)" "(domain)").2 =
      hostNoDir.generateCandidatesResult ∧
    (randward.plan hostNoDir "W" fs0 "(problem)" "(actions)" "(domain)").1.dirs = fs0.dirs :=
  C4_create_directory_failure_ignored hostNoDir "W" fs0 "(problem)" "(actions)" "(domain)"
    rfl (by decide) rfl

/-- The `strncmp` test succeeds on any message that extends the tested text. -/
theorem matchesUnknownPlannerMsg_append (rest1 rest2 : String) :
    matchesUnknownPlannerMsg (unknownPlannerMsgStart ++ rest1 ++ rest2) = true := by
  unfold matchesUnknownPlannerMsg
  rw [String.data_append, String.data_append, List.append_assoc, List.take_left]
  exact beq_self_eq_true _

/-- The `try`/`catch` tail always falls through to `return 0`. -/
theorem reportRun_exitCode (registered planners : List String)
    (res : Except String (List (String × PlanOutcome))) :
    (reportRun registered planners res).exitCode = 0 := by
  cases res <;> rfl

/-- The `try`/`catch` tail records the planner set that was passed in. -/
theorem reportRun_plannersUsed (registered planners : List String)
    (res : Except String (List (String × PlanOutcome))) :
    (reportRun registered planners res).plannersUsed = some planners := by
  cases res <;> rfl

/-- On the unknown-planner error message the catch block prints the message
and the registered names. -/
theorem reportRun_error_events (registered planners : List String) (bad : String) :
    (reportRun registered planners
        (Except.error (unknownPlannerMsgStart ++ bad ++ "' does not exist"))).events =
      [OutEvent.errorMsg (unknownPlannerMsgStart ++ bad ++ "' does not exist"),
        OutEvent.registeredNames registered] := by
  show [OutEvent.errorMsg (unknownPlannerMsgStart ++ bad ++ "' does not exist")] ++
    (if matchesUnknownPlannerMsg (unknownPlannerMsgStart ++ bad ++ "' does not exist") then
      [OutEvent.registeredNames registered] else []) = _
  rw [if_pos (matchesUnknownPlannerMsg_append bad "' does not exist")]
  rfl

/-- The catch block prints no per-solver report entry. -/
theorem reportNames_reportRun_error (registered planners : List String) (msg : String) :
    reportNames (reportRun registered planners (Except.error msg)) = [] := by
  show reportNames
    { exitCode := 0
      events := [OutEvent.errorMsg msg] ++
        (if matchesUnknownPlannerMsg msg then [OutEvent.registeredNames registered] else [])
      plannersUsed := some planners } = []
  by_cases hm : matchesUnknownPlannerMsg msg = true
  · rw [if_pos hm]
    rfl
  · rw [if_neg hm]
    rfl

/-- Past the `argc` and help guards, `main` is the post-parse phase applied to
the parse result. -/
theorem mainModel_parsed (env : CliEnv) (argv : List String) (ps : List String)
    (l sq : Bool) (pn df pf : String)
    (h2 : 2 ≤ argv.length)
    (hh : argv.getD 1 "" ≠ "-h")
    (hh2 : argv.getD 1 "" ≠ "--help")
    (hp : parseArgs argv = ParseResult.parsed ps l sq pn df pf) :
    mainModel env argv = mainAfterParse env ps l sq pn df pf := by
  have hlt : ¬ argv.length < 2 := by omega
  have h1 : ¬ (argv.getD 1 "" = "-h" ∨ argv.getD 1 "" = "--help") := by
    rintro (h | h)
    · exact hh h
    · exact hh2 h
  simp only [mainModel]
  rw [if_neg hlt, if_neg h1, hp]

/-- Counterexample to C1 as stated: with planners supplied on the command line
in the order LAMA, FD, the report comes out in the order FD, LAMA — the
`std::set` holding the requested names iterates in lexicographic order, so the
supply order on the command line is not the report order. -/
theorem C1_counterexample :
    reportNames (mainModel envTwoRegistered
      ["pddl_planner", "-l", "2", "LAMA", "FD", "dom.pddl", "prob.pddl"]) = ["FD", "LAMA"] ∧
    reportNames (mainModel envTwoRegistered
      ["pddl_planner", "-l", "2", "LAMA", "FD", "dom.pddl", "prob.pddl"]) ≠ ["LAMA", "FD"] := by
  refine ⟨rfl, ?_⟩
  rw [show reportNames (mainModel envTwoRegistered
    ["pddl_planner", "-l", "2", "LAMA", "FD", "dom.pddl", "prob.pddl"]) = ["FD", "LAMA"] from rfl]
  decide

/-- C1 amended: the report has exactly one (solverName, outcome) entry per name
of the request, and its name sequence equals the request's name sequence in
request order — the request being the ordered `std::set` of names, i.e. the
lexicographically sorted, deduplicated supplied names, not the command-line
supply order. -/
theorem C1_report_matches_request (p : Planning) (problem : String)
    (names : List String) (sq : Bool)
    (h : names.find? (fun n => !(p.registered.contains n)) = none) :
    ∃ report, planningPlan p problem names sq = Except.ok report ∧
      report.map Prod.fst = names ∧ report.length = names.length := by
  refine ⟨names.map (fun n => (n, p.outcomeOf n)), ?_, ?_, ?_⟩
  · unfold planningPlan
    rw [h]
  · rw [List.map_map,
      show (Prod.fst ∘ fun n => (n, p.outcomeOf n)) = id from funext (fun _ => rfl),
      List.map_id]
  · simp

/-- Witness for the amended C1 on the two-planner registry. -/
theorem C1_report_matches_request_witness :
    ∃ report, planningPlan envTwoRegistered.planning "(pddl)" ["FD", "LAMA"] false =
        Except.ok report ∧
      report.map Prod.fst = ["FD", "LAMA"] ∧ report.length = 2 :=
  C1_report_matches_request envTwoRegistered.planning "(pddl)" ["FD", "LAMA"] false rfl

/-- Counterexample to C3 as stated: requesting the unregistered solver "NOPE"
aborts the run with no report entries, yet the process exit code is 0 — the
catch block in `main` prints the diagnostic and falls through to `return 0`,
so the unknown-solver fail-fast condition does not produce a nonzero exit
code. -/
theorem C3_counterexample :
    (mainModel envOneRegistered
      ["pddl_planner", "-p", "NOPE", "dom.pddl", "prob.pddl"]).exitCode = 0 ∧
    reportNames (mainModel envOneRegistered
      ["pddl_planner", "-p", "NOPE", "dom.pddl", "prob.pddl"]) = [] := by
  exact ⟨rfl, rfl⟩

/-- C3 amended: after argument parsing succeeds, the process exits -1 (nonzero)
exactly when an input file cannot be opened; whenever both files are read it
exits 0 — both when a report was produced (even with per-solver failures) and
when the run aborted on an unknown solver name, whose error is printed but
still followed by `return 0`. -/
theorem C3_exit_codes (env : CliEnv) (argv : List String) (ps : List String)
    (l sq : Bool) (pn df pf : String)
    (h2 : 2 ≤ argv.length)
    (hh : argv.getD 1 "" ≠ "-h")
    (hh2 : argv.getD 1 "" ≠ "--help")
    (hp : parseArgs argv = ParseResult.parsed ps l sq pn df pf) :
    (env.readFile df = none → (mainModel env argv).exitCode = -1) ∧
    (∀ d, env.readFile df = some d → env.readFile pf = none →
      (mainModel env argv).exitCode = -1) ∧
    (∀ d pr, env.readFile df = some d → env.readFile pf = some pr →
      (mainModel env argv).exitCode = 0) := by
  rw [mainModel_parsed env argv ps l sq pn df pf h2 hh hh2 hp]
  refine ⟨?_, ?_, ?_⟩
  · intro hdf
    unfold mainAfterParse
    rw [hdf]
  · intro d hdf hpf
    unfold mainAfterParse
    rw [hdf, hpf]
  · intro d pr hdf hpf
    unfold mainAfterParse
    rw [hdf, hpf]
    exact reportRun_exitCode _ _ _

/-- Witness for the amended C3: a plain two-file invocation exits 0. -/
theorem C3_exit_codes_witness :
    (mainModel envTwoRegistered ["pddl_planner", "dom.pddl", "prob.pddl"]).exitCode = 0 :=
  (C3_exit_codes envTwoRegistered ["pddl_planner", "dom.pddl", "prob.pddl"]
    [] false false "LAMA" "dom.pddl" "prob.pddl"
    (by decide) (by decide) (by decide) rfl).2.2 "(pddl)" "(pddl)" rfl rfl

/-- C6: when neither a planner name nor a planner list is given on the command
line (just the two file arguments), the set handed to `Planning::plan` is the
single default name "LAMA". -/
theorem C6_default_planner (env : CliEnv) (prog df pf d pr : String)
    (hh : df ≠ "-h") (hh2 : df ≠ "--help")
    (hdf : env.readFile df = some d) (hpf : env.readFile pf = some pr) :
    (mainModel env [prog, df, pf]).plannersUsed = some ["LAMA"] := by
  have hp : parseArgs [prog, df, pf] =
      ParseResult.parsed [] false false "LAMA" df pf := by
    simp [parseArgs]
  rw [mainModel_parsed env [prog, df, pf] [] false false "LAMA" df pf
    (by simp) hh hh2 hp]
  unfold mainAfterParse
  rw [hdf, hpf]
  exact reportRun_plannersUsed _ _ _

/-- Witness for C6 on a concrete environment. -/
theorem C6_default_planner_witness :
    (mainModel envTwoRegistered ["pddl_planner", "dom.pddl", "prob.pddl"]).plannersUsed =
      some ["LAMA"] :=
  C6_default_planner envTwoRegistered "pddl_planner" "dom.pddl" "prob.pddl"
    "(pddl)" "(pddl)" (by decide) (by decide) rfl rfl

/-- C8: when a requested solver name is not registered, `main` prints the
error message and the registered planner names, and no per-solver result entry
is printed. -/
theorem C8_unknown_solver_diagnostics (env : CliEnv) (argv : List String)
    (ps : List String) (l sq : Bool) (pn df pf : String) (bad d pr : String)
    (h2 : 2 ≤ argv.length)
    (hh : argv.getD 1 "" ≠ "-h")
    (hh2 : argv.getD 1 "" ≠ "--help")
    (hp : parseArgs argv = ParseResult.parsed ps l sq pn df pf)
    (hdf : env.readFile df = some d) (hpf : env.readFile pf = some pr)
    (hfind : (if ¬ l then setInsert ps pn else ps).find?
      (fun n => !(env.planning.registered.contains n)) = some bad) :
    (mainModel env argv).events =
      [OutEvent.errorMsg (unknownPlannerMsgStart ++ bad ++ "' does not exist"),
        OutEvent.registeredNames env.planning.registered] ∧
    reportNames (mainModel env argv) = [] := by
  rw [mainModel_parsed env argv ps l sq pn df pf h2 hh hh2 hp]
  unfold mainAfterParse
  rw [hdf, hpf]
  have hplan : planningPlan env.planning pr (if ¬ l then setInsert ps pn else ps) sq =
      Except.error (unknownPlannerMsgStart ++ bad ++ "' does not exist") := by
    unfold planningPlan
    rw [hfind]
  show (reportRun env.planning.registered (if ¬ l then setInsert ps pn else ps)
      (planningPlan env.planning pr (if ¬ l then setInsert ps pn else ps) sq)).events = _ ∧
    reportNames (reportRun env.planning.registered (if ¬ l then setInsert ps pn else ps)
      (planningPlan env.planning pr (if ¬ l then setInsert ps pn else ps) sq)) = []
  rw [hplan]
  exact ⟨reportRun_error_events _ _ _, reportNames_reportRun_error _ _ _⟩

/-- Witness for C8 with the unregistered name "XYZ" against a registry holding
only "LAMA". -/
theorem C8_unknown_solver_diagnostics_witness :
    (mainModel envOneRegistered
      ["pddl_planner", "-p", "XYZ", "dom.pddl", "prob.pddl"]).events =
      [OutEvent.errorMsg (unknownPlannerMsgStart ++ "XYZ" ++ "' does not exist"),
        OutEvent.registeredNames envOneRegistered.planning.registered] ∧
    reportNames (mainModel envOneRegistered
      ["pddl_planner", "-p", "XYZ", "dom.pddl", "prob.pddl"]) = [] :=
  C8_unknown_solver_diagnostics envOneRegistered
    ["pddl_planner", "-p", "XYZ", "dom.pddl", "prob.pddl"]
    [] false false "XYZ" "dom.pddl" "prob.pddl" "XYZ" "(pddl)" "(pddl)"
    (by decide) (by decide) (by decide) rfl rfl rfl rfl

/-- Witness for C7 on a concrete planner state and filesystem. -/
theorem C7_prepare_writes_two_files_witness :
    (randward.prepare
        { mTempDir := "/tmp/T_randward", mDomainFilename := "", mProblemFilename := "",
          mResultFilename := "" }
        { dirs := ["/tmp", "/tmp/T_randward"], files := [] }
        "(problem)" "(actions)" "(domain)").2.fileContent
      ("/tmp/T_randward" ++ "/" ++ "domain.pddl") = some ("(domain)" ++ "\n" ++ "(actions)") :=
  (C7_prepare_writes_two_files
    { mTempDir := "/tmp/T_randward", mDomainFilename := "", mProblemFilename := "",
      mResultFilename := "" }
    { dirs := ["/tmp", "/tmp/T_randward"], files := [] }
    "(problem)" "(actions)" "(domain)" (by decide)).1

end pddl_planner
